import Mathlib

/-!
Verification development for the ibots repository (Tokenibis/ibots).

This file shallowly embeds the parts of the code that the checked
properties are about:

* `src/ibots/base.py` — `AbstractBasicBot` state persistence
  (`__init__`, `save_state`), the BID codec (`_make_bid`, `_is_bid`,
  `_parse_bid`), entity-type resolution (`_user_type`, `_entry_type`),
  the `BID_CONF` type tags, the create-mutation result extraction
  (`create_post` and friends via `utils.first_item`), the list-query
  variable preparation (`_query_list`), and the suspend loop
  (`AbstractBot.api_wait`).
* `src/ibots/server.py` — the `Waiter` wait-signal primitive
  (`poll` / `wait`) and the worker wrapper `_run_bot`'s exception
  handling.
* `src/ibots/utils.py` — `first_item`, `mixed_case`.

Python strings are modelled as `List Char` where splitting/joining
matters, and as Lean `String` where only whole-value equality matters.
JSON values are modelled by the inductive `Ibots.Json`; `json.dumps`
with default separators is `Ibots.dumps`.
-/

namespace Ibots

/-- JSON values, restricted to the constructors the embedded code paths
touch: strings, integers, booleans, null, and objects (association
lists with distinct keys, in insertion order, as Python dicts). -/
inductive Json where
  | str : String → Json
  | num : Int → Json
  | bool : Bool → Json
  | null : Json
  | obj : List (String × Json) → Json

mutual

/-- Embeds `json.dumps` with Python's default separators `", "` and `": "`
(no `indent`), as used by `save_state` (base.py line 337).  String
values in our scenarios contain no characters that `json.dumps` would
escape. -/
def dumps : Json → String
  | .str s => "\"" ++ s ++ "\""
  | .num n => toString n
  | .bool b => if b then "true" else "false"
  | .null => "null"
  | .obj fields => "\x7b" ++ dumpsFields fields ++ "\x7d"

def dumpsFields : List (String × Json) → String
  | [] => ""
  | [(k, v)] => "\"" ++ k ++ "\": " ++ dumps v
  | (k, v) :: rest => "\"" ++ k ++ "\": " ++ dumps v ++ ", " ++ dumpsFields rest

end

/-- The persistence-relevant slice of an `AbstractBasicBot` instance
plus the on-disk state file (base.py lines 293-341):

* `state` — `self.state`, the in-memory JSON state mapping;
* `state_string` — `self._state_string`, set in `__init__` and (because
  of the typo below) never updated afterwards;
* `state_strin` — the attribute actually assigned by `save_state`
  line 339 (`self._state_strin = state_string`), `none` until the first
  write;
* file — contents of the bot's `basic_state_*.json` file;
* writes — number of file writes performed by `save_state` calls. -/
structure BotStore where
  state : Json
  state_string : String
  state_strin : Option String
  file : String
  writes : Nat

/-- The value of `json.dumps({}, indent=2)`, the serialization of the empty state
mapping; with `indent=2` Python still renders the empty object as the
two-character string. -/
def emptyObjDump : String := "\x7b\x7d"

/-- The fresh-construction path of `AbstractBasicBot.__init__`
(base.py lines 301-308) when no state file exists yet: `self.state`
becomes the empty mapping, which is immediately dumped (`indent=2`) to
the new file, and `self._state_string` holds the same serialization.
No `save_state` write has happened yet. -/
def initBot : BotStore :=
  { state := .obj []
    state_string := emptyObjDump
    state_strin := none
    file := emptyObjDump
    writes := 0 }

/-- Embeds `AbstractBasicBot.save_state` (base.py lines 331-341),
exactly as written:

* `state_string = json.dumps(self.state)` (no indent);
* if it differs from `self._state_string`, the code assigns the fresh
  string to the misspelled attribute `self._state_strin` (line 339),
  leaving `self._state_string` untouched, and then writes
  `self._state_string` — the OLD serialization — to the file
  (line 341). Otherwise nothing is written. -/
def save_state (b : BotStore) : BotStore :=
  let state_string := dumps b.state
  if state_string ≠ b.state_string then
    { b with
        state_strin := some state_string
        file := b.state_string
        writes := b.writes + 1 }
  else b

/-- A bot whose fresh empty state was mutated to the mapping
`a ↦ 1` (any mutation making the state differ from the last-saved
serialization exhibits the bug). -/
def mutatedBot : BotStore :=
  { initBot with state := .obj [("a", .num 1)] }

/-- C1: refuted on the code — evaluating the embedded `save_state` at
the failing input (fresh bot whose state was mutated to the mapping
`a ↦ 1`): after the call returns, the state file holds the stale
pre-mutation serialization, not the JSON serialization of the current
in-memory state, because line 341 writes `self._state_string` (the old
string) and line 339 assigns the new string to the misspelled
attribute `self._state_strin`.  So in-memory and on-disk state do not
converge after the save, contradicting the method's own docstring
("Write the current state of :attr:`state` to disk"). -/
theorem c1_save_state_file_diverges :
    (save_state mutatedBot).file = emptyObjDump ∧
    dumps (save_state mutatedBot).state = "\x7b\"a\": 1\x7d" ∧
    (save_state mutatedBot).file ≠ dumps (save_state mutatedBot).state := by
  refine ⟨rfl, rfl, ?_⟩
  decide

/-- C6: refuted on the code — calling the embedded `save_state` twice
in a row with no intervening mutation of the state mapping performs
TWO file writes, not one: because line 339 assigns to the misspelled
`self._state_strin`, `self._state_string` never catches up with the
current serialization, so the second call's comparison at line 338
fires again and writes again. -/
theorem c6_second_save_writes_again :
    (save_state (save_state mutatedBot)).writes = 2 ∧
    (save_state mutatedBot).writes = 1 := by
  exact ⟨rfl, rfl⟩

/-! ## Identifier codec (`_make_bid`, `_is_bid`, `_parse_bid`) -/

/-- Python `str.split(sep)` for a single-character separator, on
explicit character lists: every occurrence of `sep` splits, empty
parts are kept, and the empty string splits to one empty part.
This is the semantics of `bid.split(':')` in base.py lines 318-329. -/
def splitOnChar (sep : Char) : List Char → List (List Char)
  | [] => [[]]
  | c :: cs =>
    if c = sep then [] :: splitOnChar sep cs
    else
      match splitOnChar sep cs with
      | [] => [[c]]
      | p :: ps => (c :: p) :: ps

/-- The fixed sentinel prefix of a serialized handle. -/
def bidSentinel : List Char := "__bid__".data

/-- Embeds `AbstractBasicBot._make_bid` (base.py lines 314-316):
`"__bid__:{}:{}".format(id, type)`. -/
def make_bid (id ty : List Char) : List Char :=
  bidSentinel ++ ':' :: (id ++ ':' :: ty)

/-- Embeds `AbstractBasicBot._is_bid` (base.py lines 318-321): the value is a
string (all our modelled values are), splits on `':'` into exactly
three parts, and the first part is the sentinel. -/
def is_bid (bid : List Char) : Bool :=
  (splitOnChar ':' bid).length == 3 &&
    (splitOnChar ':' bid).headD [] == bidSentinel

/-- Embeds `AbstractBasicBot._parse_bid` (base.py lines 323-329): asserts
`_is_bid` (assertion failure modelled as `none`), then returns the
mapping with `id` the second part and `type` the third part of the
colon-split. -/
def parse_bid (bid : List Char) : Option (List Char × List Char) :=
  if is_bid bid then
    some ((splitOnChar ':' bid).getD 1 [], (splitOnChar ':' bid).getD 2 [])
  else none

/-- The spec's fixed closed set of entity types (spec §3, "Handle
(BID)" invariant). -/
def closedEntityTypes : List (List Char) :=
  ["user".data, "person".data, "nonprofit".data, "bot".data,
   "donation".data, "transaction".data, "news".data, "event".data,
   "post".data, "comment".data]

theorem splitOnChar_of_not_mem {sep : Char} :
    ∀ {l : List Char}, sep ∉ l → splitOnChar sep l = [l] := by
  intro l
  induction l with
  | nil => intro _; rfl
  | cons c cs ih =>
    intro h
    have hc : ¬c = sep := fun hc => h (hc ▸ List.mem_cons_self c cs)
    have hcs : sep ∉ cs := fun hm => h (List.mem_cons_of_mem c hm)
    simp only [splitOnChar, if_neg hc, ih hcs]

theorem splitOnChar_append_sep {sep : Char} :
    ∀ {a : List Char} (rest : List Char), sep ∉ a →
      splitOnChar sep (a ++ sep :: rest) = a :: splitOnChar sep rest := by
  intro a
  induction a with
  | nil => intro rest _; simp [splitOnChar]
  | cons c cs ih =>
    intro rest h
    have hc : ¬c = sep := fun hc => h (hc ▸ List.mem_cons_self c cs)
    have hcs : sep ∉ cs := fun hm => h (List.mem_cons_of_mem c hm)
    simp only [List.cons_append, splitOnChar, if_neg hc, List.append_eq]
    rw [ih rest hcs]

/-- Colon-free id and type round-trip through the codec. -/
theorem parse_bid_make_bid {r t : List Char}
    (hr : ':' ∉ r) (ht : ':' ∉ t) :
    parse_bid (make_bid r t) = some (r, t) := by
  have hsent : ':' ∉ bidSentinel := by decide
  have hsplit : splitOnChar ':' (make_bid r t) = [bidSentinel, r, t] := by
    unfold make_bid
    rw [splitOnChar_append_sep (r ++ ':' :: t) hsent,
        splitOnChar_append_sep t hr, splitOnChar_of_not_mem ht]
  unfold parse_bid is_bid
  rw [hsplit]
  simp

/-- C5 counterexample: for the raw id `"a:b"` (a non-empty string, as
§4.1 allows for `make_handle`) and the closed-set entity type
`"post"`, the constructed handle splits into four colon-delimited
parts, so `_is_bid` is false and `_parse_bid`'s assertion fails
(`none`) instead of returning the pair — the round-trip does not hold
for all raw ids. -/
theorem c5_colon_id_breaks_roundtrip :
    parse_bid (make_bid "a:b".data "post".data) = none ∧
    "post".data ∈ closedEntityTypes := by
  constructor
  · decide
  · decide

/-- C5 (amended): for every raw id `r` that contains no colon and
every entity type `t` in the closed set, parsing the handle
constructed from `(r, t)` yields back exactly `r` as the id and `t` as
the type: `_parse_bid (_make_bid r t) = some (r, t)`. -/
theorem c5_roundtrip_colon_free (r t : List Char)
    (ht : t ∈ closedEntityTypes) (hr : ':' ∉ r) :
    parse_bid (make_bid r t) = some (r, t) := by
  have ht' : ':' ∉ t := by
    simp only [closedEntityTypes, List.mem_cons, List.not_mem_nil,
      or_false] at ht
    rcases ht with h | h | h | h | h | h | h | h | h | h <;>
      (subst h; decide)
  exact parse_bid_make_bid hr ht'

/-- Witness for C5 (amended) at the concrete raw id `"42"` and entity
type `"post"`. -/
theorem c5_roundtrip_colon_free_witness :
    parse_bid (make_bid "42".data "post".data) =
      some ("42".data, "post".data) :=
  c5_roundtrip_colon_free "42".data "post".data (by decide) (by decide)

/-! ## Entity-type resolution (`_user_type`, `_entry_type`, `BID_CONF`) -/

/-- The `person` sub-object of a user-like node: only its `isBot`
field matters to `_user_type`. -/
structure PersonShape where
  isBot : Bool

/-- A user-like node as seen by `_user_type` (base.py lines 169-173):
`node['person']` is either a person sub-object or null/absent-falsy. -/
structure UserShape where
  person : Option PersonShape

/-- An entry-like node as seen by `_entry_type` (base.py lines
175-186): for each of the six discriminant fields, whether
`node[field]` is truthy (present and non-null/non-empty). -/
structure EntryShape where
  donation : Bool
  transaction : Bool
  news : Bool
  event : Bool
  post : Bool
  comment : Bool

/-- Embeds `AbstractBasicBot._user_type` (base.py lines 169-173): a truthy
`person` sub-object yields `bot` or `human` by its `isBot` flag;
otherwise `nonprofit`. -/
def user_type (node : UserShape) : String :=
  match node.person with
  | some p => if p.isBot then "bot" else "human"
  | none => "nonprofit"

/-- The fixed ordered list of discriminant fields in `_entry_type`
(base.py lines 177-185). -/
def entryFieldOrder : List String :=
  ["donation", "transaction", "news", "event", "post", "comment"]

/-- Truthiness of `node[x]` for a discriminant field name `x` on an
entry-like node. -/
def entryField (node : EntryShape) : String → Bool
  | "donation" => node.donation
  | "transaction" => node.transaction
  | "news" => node.news
  | "event" => node.event
  | "post" => node.post
  | "comment" => node.comment
  | _ => false

/-- Embeds `AbstractBasicBot._entry_type` (base.py lines 175-186):
`[x for x in [...] if node[x]][0]` — the head of the filtered ordered
field list; indexing an empty filter result raises `IndexError`,
modelled as `none`. -/
def entry_type (node : EntryShape) : Option String :=
  (entryFieldOrder.filter (fun x => entryField node x)).head?

/-- The Entity-Type Resolution Rule for entry-like nodes exactly as
the spec words it (§3): the first field among donation, transaction,
news, event, post, comment whose value is present/non-null. -/
def entry_type_spec (node : EntryShape) : Option String :=
  if node.donation then some "donation"
  else if node.transaction then some "transaction"
  else if node.news then some "news"
  else if node.event then some "event"
  else if node.post then some "post"
  else if node.comment then some "comment"
  else none

theorem entry_type_eq_spec (node : EntryShape) :
    entry_type node = entry_type_spec node := by
  obtain ⟨d, t, n, e, p, c⟩ := node
  cases d <;> cases t <;> cases n <;> cases e <;> cases p <;> cases c <;> rfl

theorem entry_type_mem (node : EntryShape) {x : String}
    (h : entry_type node = some x) : x ∈ entryFieldOrder := by
  rw [entry_type_eq_spec] at h
  unfold entry_type_spec at h
  split_ifs at h <;> simp_all [entryFieldOrder]

/-- An entry-like node whose `donation` and `comment` fields are both
present/non-null. -/
def donationCommentNode : EntryShape :=
  ⟨true, false, false, false, false, true⟩

/-- C9: for every entry-like node, `_entry_type` resolves to exactly
the first field among the fixed ordered list donation, transaction,
news, event, post, comment whose value is present/non-null (and to
`none`, i.e. an `IndexError`, when none is); in particular the node
with both a non-null `donation` field and a non-null `comment` field
resolves to `donation`, not `comment`. -/
theorem c9_entry_type_first_match :
    (∀ node : EntryShape, entry_type node = entry_type_spec node) ∧
    entry_type donationCommentNode = some "donation" := by
  refine ⟨entry_type_eq_spec, ?_⟩
  rfl

/-- The spec's closed entity-type set, as `String`s (spec §3). -/
def closedEntityTypeSet : List String :=
  ["user", "person", "nonprofit", "bot", "donation", "transaction",
   "news", "event", "post", "comment"]

/-- The closed set amended to contain `human`, the tag the code
actually produces for non-bot persons. -/
def amendedEntityTypeSet : List String := closedEntityTypeSet ++ ["human"]

/-- The inputs a `BID_CONF` entry's lambda reads from its node
(base.py lines 200-291): the node itself viewed as a user-like shape
(for `_user_type(node)`), the node's own `isBot` field (for the
`person` entry), the `user` sub-node's user-like shape (for
`_user_type(node['user'])`), and the `parent` sub-node's entry-like
shape (for `_entry_type(node['parent'])`). -/
structure NodeShape where
  selfUser : UserShape
  isBot : Bool
  user : UserShape
  parent : EntryShape

/-- The entity-type tags minted by the `BID_CONF` entry for a given
declared node type (base.py lines 200-291), i.e. the `type` field of
each descriptor produced by that entry's lambda, in order.  For the
`comment` entry the parent tag exists only when `_entry_type` does not
raise, hence the `Option.toList`.  (Note the source's `comment` entry
tags the comment's own bid as `post`, and `_user_type` can yield
`human`.) -/
def bidConfTypes (key : String) (node : NodeShape) : List String :=
  match key with
  | "user" => [user_type node.selfUser]
  | "nonprofit" => ["nonprofit"]
  | "person" => [if node.isBot then "bot" else "human"]
  | "donation" => ["donation", user_type node.selfUser, "nonprofit"]
  | "transaction" =>
      ["transaction", user_type node.selfUser, user_type node.selfUser]
  | "news" => ["news", "nonprofit"]
  | "event" => ["event", "nonprofit"]
  | "post" => ["post", user_type node.user]
  | "comment" =>
      ["post", user_type node.user] ++ (entry_type node.parent).toList
  | _ => []

/-- The statically known target entity types of the create-with-return
and implicit-self operations: `create_post` (base.py line 925),
`create_donation` (line 957), `create_transaction` (line 989),
`create_comment` (line 1017), and the bot's own
`self.bid = _make_bid(self.id, 'bot')` (line 295). -/
def staticCreateTypes : List String :=
  ["post", "donation", "transaction", "comment", "bot"]

/-- C8 counterexample: the user-like entity-type resolution rule
applied to a node whose `person` sub-object has `isBot` false yields
the tag `human`, which is NOT a member of the spec's fixed closed set
of entity types. -/
theorem c8_human_not_in_closed_set :
    user_type ⟨some ⟨false⟩⟩ = "human" ∧
    "human" ∉ closedEntityTypeSet := by
  constructor
  · rfl
  · decide

/-- C8 (amended): every entity-type tag produced by the system — the
tags of every `BID_CONF` descriptor for every declared node type, and
the statically known create-operation target types — is drawn from the
closed set amended to include `human` (the tag the code mints for
non-bot persons, in place of the spec set's `person`). -/
theorem c8_types_in_amended_set (key : String) (node : NodeShape)
    (x : String) (hx : x ∈ bidConfTypes key node) :
    x ∈ amendedEntityTypeSet ∧ ∀ y ∈ staticCreateTypes, y ∈ amendedEntityTypeSet := by
  refine ⟨?_, by decide⟩
  have huser : ∀ u : UserShape, user_type u ∈ amendedEntityTypeSet := by
    intro u
    obtain ⟨p⟩ := u
    rcases p with _ | ⟨⟨b⟩⟩
    · decide
    · cases b <;> decide
  have hentry : ∀ (e : EntryShape) (z : String),
      z ∈ (entry_type e).toList → z ∈ amendedEntityTypeSet := by
    intro e z hz
    rcases he : entry_type e with _ | w
    · rw [he] at hz; simp at hz
    · rw [he] at hz
      simp only [Option.toList_some, List.mem_singleton] at hz
      subst hz
      have := entry_type_mem e he
      simp only [entryFieldOrder, List.mem_cons, List.not_mem_nil,
        or_false] at this
      rcases this with h | h | h | h | h | h <;> (subst h; decide)
  unfold bidConfTypes at hx
  split at hx
  · simp only [List.mem_singleton] at hx; subst hx; exact huser _
  · simp only [List.mem_singleton] at hx; subst hx; decide
  · simp only [List.mem_singleton] at hx; subst hx
    cases node.isBot <;> decide
  · simp only [List.mem_cons, List.not_mem_nil, or_false] at hx
    rcases hx with h | h | h
    · subst h; decide
    · subst h; exact huser _
    · subst h; decide
  · simp only [List.mem_cons, List.not_mem_nil, or_false] at hx
    rcases hx with h | h | h
    · subst h; decide
    · subst h; exact huser _
    · subst h; exact huser _
  · simp only [List.mem_cons, List.not_mem_nil, or_false] at hx
    rcases hx with h | h
    · subst h; decide
    · subst h; decide
  · simp only [List.mem_cons, List.not_mem_nil, or_false] at hx
    rcases hx with h | h
    · subst h; decide
    · subst h; decide
  · simp only [List.mem_cons, List.not_mem_nil, or_false] at hx
    rcases hx with h | h
    · subst h; decide
    · subst h; exact huser _
  · rcases List.mem_append.mp hx with h | h
    · simp only [List.mem_cons, List.not_mem_nil, or_false] at h
      rcases h with h | h
      · subst h; decide
      · subst h; exact huser _
    · exact hentry _ _ h
  · simp at hx

/-- Witness for C8 (amended) at a concrete `BID_CONF` key and node: a
donation node whose sending user is a non-bot person. -/
theorem c8_types_in_amended_set_witness :
    "human" ∈ bidConfTypes "donation" ⟨⟨some ⟨false⟩⟩, false, ⟨none⟩, ⟨false, false, false, false, false, false⟩⟩ ∧
    "human" ∈ amendedEntityTypeSet := by
  have h : "human" ∈ bidConfTypes "donation"
      ⟨⟨some ⟨false⟩⟩, false, ⟨none⟩, ⟨false, false, false, false, false, false⟩⟩ := by
    decide
  exact ⟨h, (c8_types_in_amended_set "donation" _ "human" h).1⟩

/-! ## `utils.first_item` and the create-with-return operations -/

/-- Models `sorted(x.keys())[0]` (utils.py line 31) for a Python dict modelled
as an association list: the lexicographically least key, or `none` for
the empty dict (where Python would raise `IndexError`).  Ties cannot
arise since dict keys are unique. -/
def firstKey : List (String × Json) → Option String
  | [] => none
  | (k, _) :: rest =>
    some (match firstKey rest with
          | none => k
          | some k2 => if k2 < k then k2 else k)

/-- Python dict indexing `x[k]` on an association list. -/
def lookupField (k : String) (fields : List (String × Json)) : Option Json :=
  (fields.find? (fun kv => kv.1 == k)).map (fun kv => kv.2)

/-- Embeds `utils.first_item` (utils.py lines 30-32), exactly as
written:

`return x[sorted(x.keys())[0]] if depth == 1 else first_item(x[sorted(x.keys())[0]])`

Note the recursive call passes NO `depth` argument, so it runs with
the default `depth=1`: for any `depth ≠ 1` the function descends
exactly two object levels, never more.  A non-dict `x` raises
`AttributeError` (`none` here); an empty dict raises `IndexError`
(`none`).  The source's `depth` parameter defaults to 1; all call
sites below pass it explicitly. -/
def first_item (x : Json) (depth : Nat) : Option Json :=
  match x with
  | .obj fields =>
    match (firstKey fields).bind (fun k => lookupField k fields) with
    | none => none
    | some child => if depth = 1 then some child else first_item child 1
  | _ => none
termination_by (if depth = 1 then 0 else 1)
decreasing_by simp_all

/-- Embeds `AbstractBasicBot.create_post` (base.py lines 900-926), from the
point where the mutation result is in hand: the value handed to
`_make_bid` as the raw id is `utils.first_item(result, depth=3)`, and
the statically known target entity type is `post`.  (`_make_bid` then
stringifies whatever value it is given.) -/
def create_post (result : Json) : Option (Json × String) :=
  (first_item result 3).map (fun v => (v, "post"))

/-- Embeds `AbstractBasicBot.create_donation` (base.py lines 928-958): raw id
from `first_item(result, depth=3)`, static type `donation`. -/
def create_donation (result : Json) : Option (Json × String) :=
  (first_item result 3).map (fun v => (v, "donation"))

/-- Embeds `AbstractBasicBot.create_transaction` (base.py lines 960-990). -/
def create_transaction (result : Json) : Option (Json × String) :=
  (first_item result 3).map (fun v => (v, "transaction"))

/-- Embeds `AbstractBasicBot.create_comment` (base.py lines 992-1018). -/
def create_comment (result : Json) : Option (Json × String) :=
  (first_item result 3).map (fun v => (v, "comment"))

/-- A `PostCreate` mutation result with the documented nesting depth
of 3: the first scalar field at depth 3 is the id `"5"`. -/
def samplePostResult : Json :=
  .obj [("createPost", .obj [("post", .obj [("id", .str "5")])])]

/-- C7: refuted on the code — evaluating the embedded `create_post` at
a mutation result whose first scalar field sits at the documented
nesting depth 3: because `utils.first_item`'s recursive call drops the
`depth` argument (it recurses with the default `depth=1`), extraction
stops at depth 2 and the minted handle's raw-id part is the depth-2
OBJECT, not the first scalar field at depth 3.  The same `first_item`
call also provably coincides with a `depth=2` call on this input. -/
theorem c7_create_post_raw_id_not_depth3_scalar :
    create_post samplePostResult =
      some (.obj [("id", .str "5")], "post") ∧
    first_item samplePostResult 3 = first_item samplePostResult 2 ∧
    first_item samplePostResult 3 ≠ some (.str "5") := by
  have hv : first_item samplePostResult 3 = some (.obj [("id", .str "5")]) := by
    rw [first_item.eq_def]
    simp only [samplePostResult, firstKey, lookupField]
    norm_num [List.find?]
    rw [first_item.eq_def]
    simp [firstKey, lookupField, List.find?]
  have hv2 : first_item samplePostResult 2 = some (.obj [("id", .str "5")]) := by
    rw [first_item.eq_def]
    simp only [samplePostResult, firstKey, lookupField]
    norm_num [List.find?]
    rw [first_item.eq_def]
    simp [firstKey, lookupField, List.find?]
  refine ⟨by simp [create_post, hv], by rw [hv, hv2], ?_⟩
  rw [hv]
  intro h
  injection h with h2
  exact Json.noConfusion h2

/-! ## `AbstractBot.api_wait` (base.py lines 98-118) -/

/-- One wake-up of the `api_wait` loop: `result` is what the pending
`self._waiter.wait(..., timeout=1)` call returned, and `stop`/
`interact` are the values of `self._stop`/`self._interact` that the
loop body would read right after that wait returned. -/
structure WakeStep where
  result : Bool
  stop : Bool
  interact : Bool
deriving DecidableEq

/-- How an `api_wait` call ends. -/
inductive ApiWaitOutcome where
  /-- the `while` condition saw a truthy `result` (or, with a working
  clock, an elapsed truthy timeout): `api_wait` returns control to the
  caller. -/
  | returned
  /-- the loop body saw `self._stop`: `stop_hook()` ran and
  `StopBotException` was raised (lines 110-114). -/
  | stopped
  /-- the supplied trace ran out while the loop was still waiting. -/
  | waiting
  /-- evaluating the `while` condition's second conjunct called
  `time.now()` — the `time` module has no attribute `now` (the
  function is `time.time`) — so `AttributeError` propagates out of
  `api_wait`: no stop check, no `stop_hook`, no `StopBotException`. -/
  | attributeError
deriving DecidableEq

/-- Python truthiness of the `timeout` argument of `api_wait`
(`None` by default): `None` and the number `0` are falsy, any other
number is truthy. -/
def timeoutTruthy : Option Nat → Bool
  | none => false
  | some n => !(n == 0)

/-- Embeds `AbstractBot.api_wait` (base.py lines 98-118) over a trace
of wake-ups.  The first wait happens BEFORE the loop, and the `while`
condition at line 109 —
`not result and (not timeout or time.now() - start < timeout)` —
short-circuits left to right each time:

* a truthy `result` exits the loop and returns, without reading the
  stop or interact flags;
* otherwise, with a falsy `timeout` (`None` or `0`), `not timeout` is
  true and the body runs: it checks `self._stop` first, then
  `self._interact` (`IPython.embed()` and clearing the flag do not
  affect control flow here), then re-waits;
* otherwise (`timeout` truthy) the conjunct evaluates `time.now()`,
  and since the `time` module has no attribute `now`, every such call
  raises `AttributeError` at its first falsy wake-up, before the stop
  check is ever reached.  (Even with a working clock, an elapsed
  timeout would exit the loop and return normally — the condition is
  tested before the body's stop check.) -/
def api_wait (timeout : Option Nat) : List WakeStep → ApiWaitOutcome
  | [] => .waiting
  | s :: rest =>
    if s.result then .returned
    else if timeoutTruthy timeout then .attributeError
    else if s.stop then .stopped
    else api_wait timeout rest

/-- C4 counterexample: a wake-up at which the stop flag has been
raised externally AND the captured signal was triggered (in a
`timeout=None` call, the only kind that can reach a stop check at
all).  The `while` condition at line 109 consumes the truthy wait
result first, so `api_wait` returns normally — the shutdown hook is
not run and the stop condition is not raised, contradicting the
claimed stop-first precedence. -/
theorem c4_triggered_signal_beats_stop_flag :
    api_wait none [⟨true, true, false⟩] = .returned ∧
    api_wait none [⟨true, true, false⟩] ≠ .stopped := by
  decide

/-- C4 (amended): the stop flag leads the precedence order only among
the conditions checked inside the loop body, and only in calls whose
`timeout` is falsy (`None`, the default, or `0`): there, at every
wake-up whose wait result was falsy, a raised stop flag makes
`api_wait` run the shutdown hook and terminate the run loop by
raising the stop condition (never resuming), before the interact flag
is acted on and before re-blocking.  A wake-up that observed a
triggered signal returns to the caller without the stop flag being
checked; and a call with a truthy `timeout` raises `AttributeError`
(`time.now` does not exist) at its first falsy wake-up, before the
stop check ever runs. -/
theorem c4_stop_first_on_untriggered_wake :
    (∀ (s : WakeStep) (rest : List WakeStep), s.result = false →
      s.stop = true → api_wait none (s :: rest) = .stopped) ∧
    (∀ (s : WakeStep) (rest : List WakeStep) (n : Nat), n ≠ 0 →
      s.result = false → api_wait (some n) (s :: rest) = .attributeError) := by
  constructor
  · intro s rest hres hstop
    simp [api_wait, timeoutTruthy, hres, hstop]
  · intro s rest n hn hres
    simp [api_wait, timeoutTruthy, hres, hn]

/-- Witness for C4 (amended): an untriggered wake-up with the stop
flag raised, in a `timeout=None` call and in a `timeout=5` call. -/
theorem c4_stop_first_on_untriggered_wake_witness :
    api_wait none [⟨false, true, false⟩] = .stopped ∧
    api_wait (some 5) [⟨false, true, false⟩] = .attributeError :=
  ⟨c4_stop_first_on_untriggered_wake.1 ⟨false, true, false⟩ [] rfl rfl,
   c4_stop_first_on_untriggered_wake.2 ⟨false, true, false⟩ [] 5
     (by decide) rfl⟩

/-! ## `server._run_bot` exception handling (server.py lines 82-107) -/

/-- The top-level names defined by module `ibots.base` (base.py): the
only exception class it defines is `StopBotException` (line 18). -/
def baseModuleNames : List String :=
  ["DIR", "StopBotException", "AbstractResource", "AbstractBot",
   "AbstractBasicBot"]

/-- The attribute names the `except base.<name>` clauses of `_run_bot`
reference, in source order (server.py lines 90, 93, 96). -/
def exceptClauses : List String :=
  ["BotStopException", "BotBalanceException", "BotNetworkException"]

/-- How the worker wrapper ends up after `bot.run` raises. -/
inductive WorkerOutcome where
  /-- Clause `except base.BotStopException`: info log of the stop,
  `break`. -/
  | cleanStop
  /-- Clause `except base.BotBalanceException`: error log, `break`. -/
  | brokeExit
  /-- Clause `except base.BotNetworkException`: warn log, sleep, `continue`. -/
  | networkRetry
  /-- bare `except Exception`: `logger.exception(…)`, `break`. -/
  | genericFault
  /-- evaluating an `except` clause's `base.<name>` expression raised
  `AttributeError` because the name does not exist in `ibots.base`;
  the new exception propagates out of `_run_bot`, skipping
  `running[name] = False`. -/
  | uncaughtAttributeError (missing : String)
deriving DecidableEq

/-- The observable result of `_run_bot`'s exception handling. -/
structure WorkerResult where
  outcome : WorkerOutcome
  /-- the `running[name]` flag after handling: set to `False` at line
  107 only if control reaches past the loop. -/
  running : Bool
  /-- whether the stop was logged at info level (line 91). -/
  stopLoggedInfo : Bool
deriving DecidableEq

/-- Effect of a handled `except base.<c>` clause, per server.py lines
90-105. -/
def clauseOutcome : String → WorkerResult
  | "BotStopException" => ⟨.cleanStop, false, true⟩
  | "BotBalanceException" => ⟨.brokeExit, false, false⟩
  | "BotNetworkException" => ⟨.networkRetry, true, false⟩
  | _ => ⟨.genericFault, false, false⟩

/-- Python's handler search for `_run_bot`'s `try` block when
`bot.run` raises the exception class named `raised`: each `except
base.<c>` expression is evaluated in order at exception time — if the
attribute `<c>` is missing from module `ibots.base`, that lookup
itself raises `AttributeError`, which replaces the in-flight exception
and propagates (no later clause, including `except Exception`, runs,
and `running[name] = False` at line 107 is skipped).  If all named
clauses resolve and none matches, the final bare `except Exception`
catches. -/
def handle_worker_exception (raised : String) : List String → WorkerResult
  | [] => ⟨.genericFault, false, false⟩
  | c :: rest =>
    if c ∈ baseModuleNames then
      if raised = c then clauseOutcome c
      else handle_worker_exception raised rest
    else ⟨.uncaughtAttributeError c, true, false⟩

/-- Models `_run_bot`'s handling of an exception raised by `bot.run`. -/
def run_bot_on_exception (raised : String) : WorkerResult :=
  handle_worker_exception raised exceptClauses

/-- C2: refuted on the code — evaluating the embedded `_run_bot`
handler at the failing input, a run loop that terminates by raising
the distinguished cooperative-stop exception `StopBotException` (the
class base.py actually defines): the first `except` clause references
`base.BotStopException`, a name that does not exist in `ibots.base`,
so handler lookup raises `AttributeError`; nothing is caught, the stop
is never logged at info level, and `running[name]` remains `True`
instead of the bot transitioning to stopped. -/
theorem c2_stop_exception_not_caught :
    run_bot_on_exception "StopBotException" =
      ⟨.uncaughtAttributeError "BotStopException", true, false⟩ ∧
    "StopBotException" ∈ baseModuleNames ∧
    "BotStopException" ∉ baseModuleNames := by
  refine ⟨rfl, by decide, by decide⟩

/-! ## The `Waiter` wait-signal primitive (server.py lines 19-43) -/

theorem getD_append_of_lt {α : Type} :
    ∀ (l l2 : List α) (i : Nat) (d : α), i < l.length →
      (l ++ l2).getD i d = l.getD i d
  | [], _, i, _, h => absurd h (Nat.not_lt_zero i)
  | _ :: _, _, 0, _, _ => rfl
  | _ :: xs, l2, i + 1, d, h =>
    getD_append_of_lt xs l2 i d (Nat.lt_of_succ_lt_succ h)

theorem getD_append_length {α : Type} :
    ∀ (l : List α) (a d : α), (l ++ [a]).getD l.length d = a
  | [], _, _ => rfl
  | _ :: xs, a, d => getD_append_length xs a d

theorem getD_set_self {α : Type} :
    ∀ (l : List α) (i : Nat) (a d : α), i < l.length →
      (l.set i a).getD i d = a
  | _ :: _, 0, _, _, _ => rfl
  | _ :: xs, i + 1, a, d, h =>
    getD_set_self xs i a d (Nat.lt_of_succ_lt_succ h)

theorem getD_set_ne {α : Type} :
    ∀ (l : List α) (i j : Nat) (a d : α), i ≠ j →
      (l.set j a).getD i d = l.getD i d
  | [], _, _, _, _, _ => rfl
  | _ :: _, 0, 0, _, _, h => absurd rfl h
  | _ :: _, 0, _ + 1, _, _, _ => rfl
  | _ :: _, _ + 1, 0, _, _, _ => rfl
  | _ :: xs, i + 1, j + 1, a, d, h =>
    getD_set_ne xs i j a d (fun hij => h (by rw [hij]))

/-- The shared `Waiter`'s signal state.  `threading.Event` objects are
modelled by indices into a sticky boolean store: `flags.getD e false`
is whether event `e` has been `set()` (an `Event`, once set, stays
set), and `current` is the index of `self._event`, the event the next
`trigger` will fire.  Fresh `Event()` objects are appended to the
store. -/
structure WaiterState where
  flags : List Bool
  current : Nat

/-- Models `Waiter.poll` line 25 before the loop: `self._event = Event()` —
one fresh, untriggered event is current. -/
def waiterInit : WaiterState := ⟨[false], 0⟩

/-- One detected-activity iteration of `Waiter.poll` (server.py lines
31-34): `self._event.set()` — the current event's sticky flag becomes
true — then `self._event = Event()` — a fresh untriggered event is
atomically made current. -/
def trigger (s : WaiterState) : WaiterState :=
  ⟨s.flags.set s.current true ++ [false], s.flags.length⟩

/-- Embeds `Waiter.wait` (server.py lines 37-43): use `event_last` if one was
passed, else capture the current event; return whether that event is
set (a set event's `wait` returns immediately with `True`; an unset
one times out and returns `False`) together with the event used, for
the caller to pass back in. -/
def waiter_wait (s : WaiterState) (event_last : Option Nat) : Bool × Nat :=
  let e := event_last.getD s.current
  (s.flags.getD e false, e)

/-- C3: a consumer that captures a reference to the current wait-signal
(`waiter_wait s none`) before any trigger occurs, after which the
signal is triggered-and-replaced twice, observes that trigger exactly
once at its next check: waiting on the captured event yields exactly
one true "activity occurred" indication (no loss — the sticky flag
holds the trigger even though the consumer was not blocked at trigger
time), and the two triggers leave no second pending indication behind
— re-capturing the then-current signal and checking it yields false
(no buildup).  The hypothesis is the `Waiter` invariant that
`self._event` always refers to a live `Event` (true at `waiterInit`
and preserved by `trigger`). -/
theorem c3_captured_trigger_observed_exactly_once (s : WaiterState)
    (h : s.current < s.flags.length) :
    (waiter_wait (trigger (trigger s)) (some (waiter_wait s none).2)).1 = true ∧
    (waiter_wait (trigger (trigger s)) none).1 = false := by
  obtain ⟨flags, c⟩ := s
  simp only [waiter_wait, trigger, Option.getD_some, Option.getD_none] at *
  have hlen1 : (flags.set c true).length = flags.length := List.length_set ..
  have hlen2 : ((flags.set c true ++ [false]).set flags.length true).length
      = flags.length + 1 := by
    simp [List.length_set, List.length_append]
  constructor
  · rw [getD_append_of_lt _ _ _ _ (by rw [hlen2]; exact Nat.lt_succ_of_lt h),
        getD_set_ne _ _ _ _ _ (Nat.ne_of_lt h),
        getD_append_of_lt _ _ _ _ (by rw [hlen1]; exact h),
        getD_set_self _ _ _ _ h]
  · have hidx : (flags.set c true ++ [false]).length = flags.length + 1 := by
      simp
    rw [hidx, ← hlen2, getD_append_length]

/-- Witness for C3 at the `Waiter`'s initial state. -/
theorem c3_captured_trigger_observed_exactly_once_witness :
    (waiter_wait (trigger (trigger waiterInit))
        (some (waiter_wait waiterInit none).2)).1 = true ∧
    (waiter_wait (trigger (trigger waiterInit)) none).1 = false :=
  c3_captured_trigger_observed_exactly_once waiterInit (by decide)

/-! ## `_query_list` variable preparation (base.py lines 1127-1139) -/

/-- Python `str.title()` restricted to the single-word identifier
fragments produced by splitting on underscores: first character
upper-cased, the rest lower-cased. -/
def title_case (y : List Char) : List Char :=
  match y with
  | [] => []
  | c :: cs => c.toUpper :: cs.map Char.toLower

/-- Embeds `utils.mixed_case` (utils.py lines 26-27):
`''.join(y.title() if i else y for i, y in enumerate(x.split('_')))` —
the first underscore-separated part unchanged, every later part
title-cased, all concatenated. -/
def mixed_case (x : List Char) : List Char :=
  match splitOnChar '_' x with
  | [] => []
  | p :: ps => p ++ (ps.map title_case).flatten

/-- The per-variable value transformation of `_query_list` (base.py
lines 1134-1135): `self._parse_bid(v)['id'] if self._is_bid(v) else v`
— a handle is unwrapped to its raw id, any other value passes
through. -/
def unbid_value (v : List Char) : List Char :=
  if is_bid v then (splitOnChar ':' v).getD 1 [] else v

/-- What a `_query_list` invocation does with its caller-supplied
variables before anything else can happen. -/
inductive QueryListAction where
  /-- Case where `self.api_call(self.OPS[ops_key], variables=vars)` is executed:
  a network call carrying exactly `vars` is attempted. -/
  | network (vars : List (List Char × List Char))
  /-- the unsupported-variable condition the claim describes; no code
  path of `_query_list` produces it. -/
  | unsupportedVariable
deriving DecidableEq

/-- The variable mapping `_query_list` builds and hands to `api_call`
(base.py lines 1133-1137): every caller-supplied variable whose value
is not `None` is kept — key converted by `utils.mixed_case`, value
unwrapped by `unbid_value` — with no check of any kind against the
operation's declared parameter set.  The kwargs dict is modelled as an
association list with distinct keys. -/
def query_list_variables
    (vars : List (List Char × Option (List Char))) :
    List (List Char × List Char) :=
  vars.filterMap
    (fun kv => kv.2.map (fun v => (mixed_case kv.1, unbid_value v)))

/-- Embeds `AbstractBasicBot._query_list` (base.py lines 1127-1139) up to the
point of the `api_call`: whatever the caller supplied, the method
unconditionally proceeds to the network call with the prepared
variable mapping — there is no declared-parameter validation. -/
def query_list_request
    (vars : List (List Char × Option (List Char))) :
    QueryListAction :=
  .network (query_list_variables vars)

/-- C10 counterexample: invoking the embedded `_query_list` with the
variable name `bogus_variable` — which is not a declared parameter of
any list operation — produces a network call whose variable mapping
contains the (case-converted) undeclared variable; no
unsupported-variable condition is raised before the call. -/
theorem c10_undeclared_variable_forwarded :
    query_list_request [("bogus_variable".data, some "x".data)] =
      .network [("bogusVariable".data, "x".data)] ∧
    query_list_request [("bogus_variable".data, some "x".data)] ≠
      .unsupportedVariable := by
  decide

/-- C10 (amended): `_query_list` performs no declared-parameter check
at all: every caller-supplied variable with a non-`None` value —
declared or not — is forwarded in the attempted network call's
variable mapping, with its name converted by `mixed_case` and its
value unwrapped by `unbid_value`; the unsupported-variable condition
is never raised locally (any such failure can only come from the
remote execution). -/
theorem c10_all_variables_forwarded
    (vars : List (List Char × Option (List Char)))
    (k v : List Char) (h : (k, some v) ∈ vars) :
    ∃ sent, query_list_request vars = .network sent ∧
      (mixed_case k, unbid_value v) ∈ sent := by
  refine ⟨query_list_variables vars, rfl, ?_⟩
  exact List.mem_filterMap.mpr ⟨(k, some v), h, rfl⟩

/-- Witness for C10 (amended) at a concrete undeclared variable. -/
theorem c10_all_variables_forwarded_witness :
    ∃ sent,
      query_list_request [("bogus_variable".data, some "x".data)] =
        .network sent ∧
      (mixed_case "bogus_variable".data, unbid_value "x".data) ∈ sent :=
  c10_all_variables_forwarded [("bogus_variable".data, some "x".data)]
    "bogus_variable".data "x".data (by decide)

end Ibots
